import Mathlib

/-!
Shallow embedding of the thermocouple conversion library
(src/LIB/thermocouple_sensor.c and thermocouple_sensor.h).

Modelling conventions:
* C `double` values are modelled as exact rationals (`ℚ`); every constant
  below is the exact decimal written in the source.
* The C library function `exp` (used only by the type-K correction term of
  `TC_CalculateVoltage`) is modelled as an abstract parameter
  `expf : ℚ → ℚ`; every theorem about `TC_CalculateVoltage` is proved for
  an arbitrary such function.
* A C `PolyCoeff` (pointer + `uint8_t` length) is modelled as the
  coefficient list itself; the NULL pointer with length 0 is the empty
  list.  All coefficient arrays in the source have length ≤ 15 < 256.
* `ThermocoupleType` is a C enum whose underlying values are 0..7; a C
  caller may pass any integer, so the type argument is modelled as `ℤ`.
-/

/-- A range `[min, max]` with its polynomial coefficients
(`RangePoly` in thermocouple_sensor.h). -/
structure RangePoly where
  min : ℚ
  max : ℚ
  poly : List ℚ

/-- The failure sentinel `#define TC_CONVERSION_FAILED -1.0e6`. -/
def TC_CONVERSION_FAILED : ℚ := -1.0e6

/-- Enum value `TC_TYPE_R = 0`. -/
def TC_TYPE_R : ℤ := 0
/-- Enum value `TC_TYPE_S = 1`. -/
def TC_TYPE_S : ℤ := 1
/-- Enum value `TC_TYPE_B = 2`. -/
def TC_TYPE_B : ℤ := 2
/-- Enum value `TC_TYPE_J = 3`. -/
def TC_TYPE_J : ℤ := 3
/-- Enum value `TC_TYPE_T = 4`. -/
def TC_TYPE_T : ℤ := 4
/-- Enum value `TC_TYPE_E = 5`. -/
def TC_TYPE_E : ℤ := 5
/-- Enum value `TC_TYPE_K = 6`. -/
def TC_TYPE_K : ℤ := 6
/-- Enum value `TC_TYPE_N = 7`. -/
def TC_TYPE_N : ℤ := 7

def TC_Coeff_R_mVToTemp_Range1 : List ℚ :=
  [0.0000000, 1.8891380e2, -9.3835290e1, 1.3068619e2, -2.2703580e2, 3.5145659e2, -3.8953900e2, 2.8239471e2, -1.2607281e2, 3.1353611e1, -3.3187769]

def TC_Coeff_R_mVToTemp_Range2 : List ℚ :=
  [1.334584505e1, 1.472644573e2, -1.844024844e1, 4.031129726, -6.249428360e-1, 6.468412046e-2, -4.458750426e-3, 1.994710149e-4, -5.313401790e-6, 6.481976217e-8, 0.000000000]

def TC_Coeff_R_mVToTemp_Range3 : List ℚ :=
  [-8.199599416e1, 1.553962042e2, -8.342197663, 4.279433549e-1, -1.191577910e-2, 1.492290091e-4, 0.000000000, 0.000000000, 0.000000000, 0.000000000, 0.000000000]

def TC_Coeff_R_mVToTemp_Range4 : List ℚ :=
  [3.406177836e4, -7.023729171e3, 5.582903813e2, -1.952394635e1, 2.560740231e-1, 0.000000000, 0.000000000, 0.000000000, 0.000000000, 0.000000000, 0.000000000]

def TC_Coeff_R_TempToMV_Range1 : List ℚ :=
  [0.000000000000, 0.528961729765e-2, 0.139166589782e-4, -0.238855693017e-7, 0.356916001063e-10, -0.462347666298e-13, 0.500777441034e-16, -0.373105886191e-19, 0.157716482367e-22, -0.281038625251e-26]

def TC_Coeff_R_TempToMV_Range2 : List ℚ :=
  [0.295157925316e1, -0.252061251332e-2, 0.159564501865e-4, -0.764085947576e-8, 0.205305291024e-11, -0.293359668173e-15]

def TC_Coeff_R_TempToMV_Range3 : List ℚ :=
  [0.152232118209e3, -0.268819888545, 0.171280280471e-3, -0.345895706453e-7, -0.934633971046e-14]

def TC_Coeff_S_mVToTemp_Range1 : List ℚ :=
  [0.00000000, 1.84949460e2, -8.00504062e1, 1.02237430e2, -1.52248592e2, 1.88821343e2, -1.59085941e2, 8.23027880e1, -2.34181944e1, 2.79786260]

def TC_Coeff_S_mVToTemp_Range2 : List ℚ :=
  [1.291507177e1, 1.466298863e2, -1.534713402e1, 3.145945973, -4.163257839e-1, 3.187963771e-2, -1.291637500e-3, 2.183475087e-5, -1.447379511e-7, 8.211272125e-9]

def TC_Coeff_S_mVToTemp_Range3 : List ℚ :=
  [-8.087801117e1, 1.621573104e2, -8.536869453, 4.719686976e-1, -1.441693666e-2, 2.081618890e-4, 0.000000000, 0.000000000, 0.000000000, 0.000000000]

def TC_Coeff_S_mVToTemp_Range4 : List ℚ :=
  [5.333875126e4, -1.235892298e4, 1.092657613e3, -4.265693686e1, 6.247205420e-1, 0.000000000, 0.000000000, 0.000000000, 0.000000000, 0.000000000]

def TC_Coeff_S_TempToMV_Range1 : List ℚ :=
  [0.000000000000, 0.540313308631e-2, 0.125934289740e-4, -0.232477968689e-7, 0.322028823036e-10, -0.331465196389e-13, 0.255744251786e-16, -0.125068871393e-19, 0.271443176145e-23]

def TC_Coeff_S_TempToMV_Range2 : List ℚ :=
  [0.132900444085e1, 0.334509311344e-2, 0.654805192818e-5, -0.164856259209e-8, 0.129989605174e-13]

def TC_Coeff_S_TempToMV_Range3 : List ℚ :=
  [0.146628232636e3, -0.258430516752, 0.163693574641e-3, -0.330439046987e-7, -0.943223690612e-14]

def TC_Coeff_B_mVToTemp_Range1 : List ℚ :=
  [9.8423321e1, 6.9971500e2, -8.4765304e2, 1.0052644e3, -8.3345952e2, 4.5508542e2, -1.5523037e2, 2.9886750e1, -2.4742860]

def TC_Coeff_B_mVToTemp_Range2 : List ℚ :=
  [2.1315071e2, 2.8510504e2, -5.2742887e1, 9.9160804, -1.2965303, 1.1195870e-1, -6.0625199e-3, 1.8661696e-4, -2.4878585e-6]

def TC_Coeff_B_TempToMV_Range1 : List ℚ :=
  [0.000000000000, -0.246508183460e-3, 0.590404211710e-5, -0.132579316360e-8, 0.156682919010e-11, -0.169445292400e-14, 0.629903470940e-18]

def TC_Coeff_B_TempToMV_Range2 : List ℚ :=
  [-0.389381686210e1, 0.285717474700e-1, -0.848851047850e-4, 0.157852801640e-6, -0.168353448640e-9, 0.111097940130e-12, -0.445154310330e-16, 0.989756408210e-20, -0.937913302890e-24]

def TC_Coeff_J_mVToTemp_Range1 : List ℚ :=
  [0.0000000, 1.9528268e1, -1.2286185, -1.0752178, -5.9086933e-1, -1.7256713e-1, -2.8131513e-2, -2.3963370e-3, -8.3823321e-5]

def TC_Coeff_J_mVToTemp_Range2 : List ℚ :=
  [0.000000, 1.978425e1, -2.001204e-1, 1.036969e-2, -2.549687e-4, 3.585153e-6, -5.344285e-8, 5.099890e-10, 0.000000]

def TC_Coeff_J_mVToTemp_Range3 : List ℚ :=
  [-3.11358187e3, 3.00543684e2, -9.94773230, 1.70276630e-1, -1.43033468e-3, 4.73886084e-6, 0.00000000, 0.00000000, 0.00000000]

def TC_Coeff_J_TempToMV_Range1 : List ℚ :=
  [0.000000000000, 0.503811878150e-1, 0.304758369300e-4, -0.856810657200e-7, 0.132281952950e-9, -0.170529583370e-12, 0.209480906970e-15, -0.125383953360e-18, 0.156317256970e-22]

def TC_Coeff_J_TempToMV_Range2 : List ℚ :=
  [0.296456256810e3, -0.149761277860e1, 0.317871039240e-2, -0.318476867010e-5, 0.157208190040e-8, -0.306913690560e-12]

def TC_Coeff_T_mVToTemp_Range1 : List ℚ :=
  [0.0000000, 2.5949192e1, -2.1316967e-1, 7.9018692e-1, 4.2527777e-1, 1.3304473e-1, 2.0241446e-2, 1.2668171e-3]

def TC_Coeff_T_mVToTemp_Range2 : List ℚ :=
  [0.000000, 2.592800e1, -7.602961e-1, 4.637791e-2, -2.165394e-3, 6.048144e-5, -7.293422e-7, 0.000000]

def TC_Coeff_T_TempToMV_Range1 : List ℚ :=
  [0.000000000000, 0.387481063640e-1, 0.441944343470e-4, 0.118443231050e-6, 0.200329735540e-7, 0.901380195590e-9, 0.226511565930e-10, 0.360711542050e-12, 0.384939398830e-14, 0.282135219250e-16, 0.142515947790e-18, 0.487686622860e-21, 0.107955392700e-23, 0.139450270620e-26, 0.797951539270e-30]

def TC_Coeff_T_TempToMV_Range2 : List ℚ :=
  [0.000000000000, 0.387481063640e-1, 0.332922278800e-4, 0.206182434040e-6, -0.218822568460e-8, 0.109968809280e-10, -0.308157587720e-13, 0.454791352900e-16, -0.275129016730e-19]

def TC_Coeff_E_mVToTemp_Range1 : List ℚ :=
  [0.0000000, 1.6977288e1, -4.3514970e-1, -1.5859697e-1, -9.2502871e-2, -2.6084314e-2, -4.1360199e-3, -3.4034030e-4, -1.1564890e-5, 0.0000000]

def TC_Coeff_E_mVToTemp_Range2 : List ℚ :=
  [0.0000000, 1.7057035e1, -2.3301759e-1, 6.5435585e-3, -7.3562749e-5, -1.7896001e-6, 8.4036165e-8, -1.3735879e-9, 1.0629823e-11, -3.2447087e-14]

def TC_Coeff_E_TempToMV_Range1 : List ℚ :=
  [0.000000000000, 0.586655087080e-1, 0.454109771240e-4, -0.779980486860e-6, -0.258001608430e-7, -0.594525830570e-9, -0.932140586670e-11, -0.102876055340e-12, -0.803701236210e-15, -0.439794973910e-17, -0.164147763550e-19, -0.396736195160e-22, -0.558273287210e-25, -0.346578420130e-28]

def TC_Coeff_E_TempToMV_Range2 : List ℚ :=
  [0.000000000000, 0.586655087100e-1, 0.450322755820e-4, 0.289084072120e-7, -0.330568966520e-9, 0.650244032700e-12, -0.191974955040e-15, -0.125366004970e-17, 0.214892175690e-20, -0.143880417820e-23, 0.359608994810e-27]

def TC_Coeff_K_mVToTemp_Range1 : List ℚ :=
  [0.0000000, 2.5173462e1, -1.1662878, -1.0833638, -8.9773540e-1, -3.7342377e-1, -8.6632643e-2, -1.0450598e-2, -5.1920577e-4, 0.0000000]

def TC_Coeff_K_mVToTemp_Range2 : List ℚ :=
  [0.000000, 2.508355e1, 7.860106e-2, -2.503131e-1, 8.315270e-2, -1.228034e-2, 9.804036e-4, -4.413030e-5, 1.057734e-6, -1.052755e-8]

def TC_Coeff_K_mVToTemp_Range3 : List ℚ :=
  [-1.318058e2, 4.830222e1, -1.646031, 5.464731e-2, -9.650715e-4, 8.802193e-6, -3.110810e-8, 0.000000, 0.000000, 0.000000]

def TC_Coeff_K_TempToMV_Range1 : List ℚ :=
  [0.000000000000, 0.394501280250e-1, 0.236223735980e-4, -0.328589067840e-6, -0.499048287770e-8, -0.675090591730e-10, -0.574103274280e-12, -0.310888728940e-14, -0.104516093650e-16, -0.198892668780e-19, -0.163226974860e-22]

def TC_Coeff_K_TempToMV_Range2 : List ℚ :=
  [-0.176004136860e-1, 0.389212049750e-1, 0.185587700320e-4, -0.994575928740e-7, 0.318409457190e-9, -0.560728448890e-12, 0.560750590590e-15, -0.320207200030e-18, 0.971511471520e-22, -0.121047212750e-25]

def TC_Coeff_N_mVToTemp_Range1 : List ℚ :=
  [0.0000000, 3.8436847e1, 1.1010485, 5.2229312, 7.2060525, 5.8488586, 2.7754916, 7.7075166e-1, 1.1582665e-1, 7.3138868e-3]

def TC_Coeff_N_mVToTemp_Range2 : List ℚ :=
  [0.00000, 3.86896e1, -1.08267, 4.70205e-2, -2.12169e-6, -1.17272e-4, 5.39280e-6, -7.98156e-8, 0.00000, 0.00000]

def TC_Coeff_N_mVToTemp_Range3 : List ℚ :=
  [1.972485e1, 3.300943e1, -3.915159e-1, 9.855391e-3, -1.274371e-4, 7.767022e-7, 0.000000, 0.000000, 0.000000, 0.000000]

def TC_Coeff_N_TempToMV_Range1 : List ℚ :=
  [0.000000000000, 0.261591059620e-1, 0.109574842280e-4, -0.938411115540e-7, -0.464120397590e-10, -0.263033577160e-11, -0.226534380030e-13, -0.760893007910e-16, -0.934196678350e-19]

def TC_Coeff_N_TempToMV_Range2 : List ℚ :=
  [0.000000000000, 0.259293946010e-1, 0.157101418800e-4, 0.438256272370e-7, -0.252611697940e-9, 0.643118193390e-12, -0.100634715190e-14, 0.997453389920e-18, -0.608632456070e-21, 0.208492293390e-24, -0.306821961510e-28]

def TC_Coeff_K_TempToMV_A0 : ℚ := 0.118597600000

def TC_Coeff_K_TempToMV_A1 : ℚ := -0.118343200000e-3

def TC_Coeff_K_TempToMV_A2 : ℚ := 0.126968600000e3

def TC_R_mVToTemp : List RangePoly :=
[
  ⟨-0.228, 1.923, TC_Coeff_R_mVToTemp_Range1⟩,
  ⟨1.923, 11.361, TC_Coeff_R_mVToTemp_Range2⟩,
  ⟨11.361, 19.739, TC_Coeff_R_mVToTemp_Range3⟩,
  ⟨19.739, 21.105, TC_Coeff_R_mVToTemp_Range4⟩
]

def TC_R_TempToMV : List RangePoly :=
[
  ⟨-50.5, 1064.18, TC_Coeff_R_TempToMV_Range1⟩,
  ⟨1064.18, 1664.5, TC_Coeff_R_TempToMV_Range2⟩,
  ⟨1664.5, 1768.5, TC_Coeff_R_TempToMV_Range3⟩
]

def TC_S_mVToTemp : List RangePoly :=
[
  ⟨-0.237, 1.874, TC_Coeff_S_mVToTemp_Range1⟩,
  ⟨1.874, 10.332, TC_Coeff_S_mVToTemp_Range2⟩,
  ⟨10.332, 17.536, TC_Coeff_S_mVToTemp_Range3⟩,
  ⟨17.536, 18.697, TC_Coeff_S_mVToTemp_Range4⟩
]

def TC_S_TempToMV : List RangePoly :=
[
  ⟨-50.5, 1064.18, TC_Coeff_S_TempToMV_Range1⟩,
  ⟨1064.18, 1664.5, TC_Coeff_S_TempToMV_Range2⟩,
  ⟨1664.5, 1768.5, TC_Coeff_S_TempToMV_Range3⟩
]

def TC_B_mVToTemp : List RangePoly :=
[
  ⟨0.292, 2.431, TC_Coeff_B_mVToTemp_Range1⟩,
  ⟨2.431, 13.825, TC_Coeff_B_mVToTemp_Range2⟩
]

def TC_B_TempToMV : List RangePoly :=
[
  ⟨-0.5, 630.615, TC_Coeff_B_TempToMV_Range1⟩,
  ⟨630.615, 1820.5, TC_Coeff_B_TempToMV_Range2⟩
]

def TC_J_mVToTemp : List RangePoly :=
[
  ⟨-8.1, 0.0, TC_Coeff_J_mVToTemp_Range1⟩,
  ⟨0.0, 42.914, TC_Coeff_J_mVToTemp_Range2⟩,
  ⟨42.914, 69.58, TC_Coeff_J_mVToTemp_Range3⟩
]

def TC_J_TempToMV : List RangePoly :=
[
  ⟨-210.5, 760.0, TC_Coeff_J_TempToMV_Range1⟩,
  ⟨760.0, 1200.5, TC_Coeff_J_TempToMV_Range2⟩
]

def TC_T_mVToTemp : List RangePoly :=
[
  ⟨-5.61, 0.0, TC_Coeff_T_mVToTemp_Range1⟩,
  ⟨0.0, 20.88, TC_Coeff_T_mVToTemp_Range2⟩
]

def TC_T_TempToMV : List RangePoly :=
[
  ⟨-270.5, 0.0, TC_Coeff_T_TempToMV_Range1⟩,
  ⟨0.0, 400.5, TC_Coeff_T_TempToMV_Range2⟩
]

def TC_E_mVToTemp : List RangePoly :=
[
  ⟨-8.84, 0.0, TC_Coeff_E_mVToTemp_Range1⟩,
  ⟨0.0, 76.38, TC_Coeff_E_mVToTemp_Range2⟩
]

def TC_E_TempToMV : List RangePoly :=
[
  ⟨-270.5, 0.0, TC_Coeff_E_TempToMV_Range1⟩,
  ⟨0.0, 1000.5, TC_Coeff_E_TempToMV_Range2⟩
]

def TC_K_mVToTemp : List RangePoly :=
[
  ⟨-5.895, 0.0, TC_Coeff_K_mVToTemp_Range1⟩,
  ⟨0.0, 20.644, TC_Coeff_K_mVToTemp_Range2⟩,
  ⟨20.644, 52.425, TC_Coeff_K_mVToTemp_Range3⟩
]

def TC_N_mVToTemp : List RangePoly :=
[
  ⟨-4, 0.0, TC_Coeff_N_mVToTemp_Range1⟩,
  ⟨0.0, 20.613, TC_Coeff_N_mVToTemp_Range2⟩,
  ⟨20.613, 47.52, TC_Coeff_N_mVToTemp_Range3⟩
]

def TC_N_TempToMV : List RangePoly :=
[
  ⟨-270.5, 0.0, TC_Coeff_N_TempToMV_Range1⟩,
  ⟨0.0, 1300.5, TC_Coeff_N_TempToMV_Range2⟩
]


/-- The type-K temperature→voltage "table".  The source stores this
direction not as a `RangePoly` array but as an if/else chain inside the
`TC_TYPE_K` case of `TC_CalculateVoltage`; the bounds below are read off
those branch conditions (`-270.5 ≤ t ≤ 0.0` → Range1,
`0.0 < t ≤ 1372.5` → Range2). -/
def TC_K_TempToMV : List RangePoly :=
[
  ⟨-270.5, 0.0, TC_Coeff_K_TempToMV_Range1⟩,
  ⟨0.0, 1372.5, TC_Coeff_K_TempToMV_Range2⟩
]

/-- `FindPolyCoeff` (thermocouple_sensor.c): linear scan in table order,
returning the polynomial of the first range whose closed interval
contains `value`, `none` (C: NULL) if no range matches. -/
def FindPolyCoeff : List RangePoly → ℚ → Option (List ℚ)
  | [], _ => none
  | r :: rs, value =>
      if r.min ≤ value ∧ value ≤ r.max then some r.poly
      else FindPolyCoeff rs value

/-- `Polynomial_Evaluate` (thermocouple_sensor.c): Horner evaluation
`result = 0; for i from length-1 downto 0: result = result*x + c[i]`.
`foldr` performs exactly this loop; the empty list gives the C behaviour
at `length = 0` (loop body never runs, result 0, no array access). -/
def Polynomial_Evaluate (c : List ℚ) (input : ℚ) : ℚ :=
  c.foldr (fun ci result => result * input + ci) 0

/-- The shared post-switch logic of both conversion functions: look the
value up in the selected table; on a match evaluate the polynomial,
otherwise keep the initial `TC_CONVERSION_FAILED`. -/
def RangeConvert (tbl : List RangePoly) (x : ℚ) : ℚ :=
  match FindPolyCoeff tbl x with
  | some c => Polynomial_Evaluate c x
  | none => TC_CONVERSION_FAILED

/-- `TC_CalculateTemperature` (thermocouple_sensor.c): dispatch on the
type to the voltage→temperature table; unknown types fall to the default
branch and return the sentinel. -/
def TC_CalculateTemperature (ty : ℤ) (voltage : ℚ) : ℚ :=
  if ty = TC_TYPE_R then RangeConvert TC_R_mVToTemp voltage
  else if ty = TC_TYPE_S then RangeConvert TC_S_mVToTemp voltage
  else if ty = TC_TYPE_B then RangeConvert TC_B_mVToTemp voltage
  else if ty = TC_TYPE_J then RangeConvert TC_J_mVToTemp voltage
  else if ty = TC_TYPE_T then RangeConvert TC_T_mVToTemp voltage
  else if ty = TC_TYPE_E then RangeConvert TC_E_mVToTemp voltage
  else if ty = TC_TYPE_K then RangeConvert TC_K_mVToTemp voltage
  else if ty = TC_TYPE_N then RangeConvert TC_N_mVToTemp voltage
  else TC_CONVERSION_FAILED

/-- The type-K correction term
`A0 * exp(A1 * (temperature - A2)^2)` of `TC_CalculateVoltage`, with the
library `exp` abstracted as `expf`. -/
def TC_K_Correction (expf : ℚ → ℚ) (temperature : ℚ) : ℚ :=
  TC_Coeff_K_TempToMV_A0 *
    expf (TC_Coeff_K_TempToMV_A1 * (temperature - TC_Coeff_K_TempToMV_A2) ^ 2)

/-- `TC_CalculateVoltage` (thermocouple_sensor.c).  The `TC_TYPE_K` case
mirrors the C control flow exactly: the range is chosen by the if/else
chain (falling through to a NULL pointer / length 0, i.e. `[]`, when the
temperature is outside both ranges — the C assignment
`voltage = TC_CONVERSION_FAILED` in that `else` is dead, because
`voltage = Polynomial_Evaluate(pCoeff, length, temperature)` runs
unconditionally right after it), then the correction is added whenever
`temperature > 0.0`. -/
def TC_CalculateVoltage (expf : ℚ → ℚ) (ty : ℤ) (temperature : ℚ) : ℚ :=
  if ty = TC_TYPE_R then RangeConvert TC_R_TempToMV temperature
  else if ty = TC_TYPE_S then RangeConvert TC_S_TempToMV temperature
  else if ty = TC_TYPE_B then RangeConvert TC_B_TempToMV temperature
  else if ty = TC_TYPE_J then RangeConvert TC_J_TempToMV temperature
  else if ty = TC_TYPE_T then RangeConvert TC_T_TempToMV temperature
  else if ty = TC_TYPE_E then RangeConvert TC_E_TempToMV temperature
  else if ty = TC_TYPE_K then
    (let pCoeff : List ℚ :=
      if -270.5 ≤ temperature ∧ temperature ≤ 0 then TC_Coeff_K_TempToMV_Range1
      else if 0 < temperature ∧ temperature ≤ 1372.5 then TC_Coeff_K_TempToMV_Range2
      else [];
    let voltage := Polynomial_Evaluate pCoeff temperature;
    if 0 < temperature then voltage + TC_K_Correction expf temperature
    else voltage)
  else if ty = TC_TYPE_N then RangeConvert TC_N_TempToMV temperature
  else TC_CONVERSION_FAILED

/-! ### Generic lemmas about the embedded operations -/

lemma Polynomial_Evaluate_nil (x : ℚ) : Polynomial_Evaluate [] x = 0 := rfl

lemma Polynomial_Evaluate_cons (c0 : ℚ) (cs : List ℚ) (x : ℚ) :
    Polynomial_Evaluate (c0 :: cs) x = Polynomial_Evaluate cs x * x + c0 := rfl

/-- Horner evaluation computes the polynomial sum
`c[0] + c[1]*x + ... + c[n-1]*x^(n-1)`. -/
lemma polyEval_eq_sum (c : List ℚ) (x : ℚ) :
    Polynomial_Evaluate c x = ∑ i in Finset.range c.length, c.getD i 0 * x ^ i := by
  induction c with
  | nil => simp [Polynomial_Evaluate]
  | cons c0 cs ih =>
      rw [Polynomial_Evaluate_cons, ih, List.length_cons, Finset.sum_range_succ']
      simp only [List.getD_cons_succ, List.getD_cons_zero, pow_zero, pow_succ, mul_one,
        ← mul_assoc]
      rw [← Finset.sum_mul]

/-- A lower bound for the term `ci * x ^ i` valid for every `x ∈ [lo, hi]`. -/
def termLB (ci : ℚ) (i : ℕ) (lo hi : ℚ) : ℚ :=
  if 0 ≤ lo then (if 0 ≤ ci then ci * lo ^ i else ci * hi ^ i)
  else -(|ci| * (max |lo| |hi|) ^ i)

lemma termLB_le (ci : ℚ) (i : ℕ) (lo hi x : ℚ) (h1 : lo ≤ x) (h2 : x ≤ hi) :
    termLB ci i lo hi ≤ ci * x ^ i := by
  unfold termLB
  split_ifs with hlo hci
  · exact mul_le_mul_of_nonneg_left (pow_le_pow_left₀ hlo h1 i) hci
  · have hx : (0 : ℚ) ≤ x := le_trans hlo h1
    exact mul_le_mul_of_nonpos_left (pow_le_pow_left₀ hx h2 i) (le_of_not_le hci)
  · have hxM : |x| ≤ max |lo| |hi| := by
      rw [abs_le]
      constructor
      · calc -(max |lo| |hi|) ≤ -|lo| := neg_le_neg (le_max_left _ _)
          _ ≤ lo := neg_abs_le lo
          _ ≤ x := h1
      · calc x ≤ hi := h2
          _ ≤ |hi| := le_abs_self hi
          _ ≤ max |lo| |hi| := le_max_right _ _
    calc -(|ci| * (max |lo| |hi|) ^ i)
        ≤ -(|ci| * |x| ^ i) := by
          apply neg_le_neg
          exact mul_le_mul_of_nonneg_left (pow_le_pow_left₀ (abs_nonneg x) hxM i) (abs_nonneg ci)
      _ = -|ci * x ^ i| := by rw [abs_mul, abs_pow]
      _ ≤ ci * x ^ i := neg_abs_le _

/-- A lower bound for `Polynomial_Evaluate c x` valid for every `x ∈ [lo, hi]`. -/
def lbound (c : List ℚ) (lo hi : ℚ) : ℚ :=
  ∑ i in Finset.range c.length, termLB (c.getD i 0) i lo hi

lemma lbound_le (c : List ℚ) (lo hi x : ℚ) (h1 : lo ≤ x) (h2 : x ≤ hi) :
    lbound c lo hi ≤ Polynomial_Evaluate c x := by
  rw [polyEval_eq_sum]
  exact Finset.sum_le_sum fun i _ => termLB_le _ i lo hi x h1 h2

/-- First bound of a table (0 for the empty table). -/
def headMin : List RangePoly → ℚ
  | [] => 0
  | r :: _ => r.min

/-- Last bound of a table (0 for the empty table). -/
def lastMax : List RangePoly → ℚ
  | [] => 0
  | [r] => r.max
  | _ :: r :: rs => lastMax (r :: rs)

/-- The table invariant: every range has `min ≤ max` and consecutive
ranges touch (`max` of entry `i` equals `min` of entry `i+1`). -/
def orderedB : List RangePoly → Bool
  | [] => true
  | [r] => decide (r.min ≤ r.max)
  | a :: b :: rs => decide (a.min ≤ a.max) && decide (a.max = b.min) && orderedB (b :: rs)

lemma find_none_iff (rs : List RangePoly) (v : ℚ) :
    FindPolyCoeff rs v = none ↔ ∀ r ∈ rs, ¬(r.min ≤ v ∧ v ≤ r.max) := by
  induction rs with
  | nil => simp [FindPolyCoeff]
  | cons r rs ih =>
      simp only [FindPolyCoeff]
      split_ifs with h
      · constructor
        · intro hcon
          exact hcon.elim
        · intro hall
          exact ((hall r (List.mem_cons_self r rs)) h).elim
      · rw [ih]
        constructor
        · intro htail r2 hmem
          rcases List.mem_cons.mp hmem with heq | hmem2
          · rw [heq]
            exact h
          · exact htail r2 hmem2
        · intro hall r2 hmem
          exact hall r2 (List.mem_cons_of_mem r hmem)

lemma find_mem (rs : List RangePoly) (v : ℚ) (c : List ℚ)
    (h : FindPolyCoeff rs v = some c) :
    ∃ r ∈ rs, r.poly = c ∧ r.min ≤ v ∧ v ≤ r.max := by
  induction rs with
  | nil => simp [FindPolyCoeff] at h
  | cons r rs ih =>
      simp only [FindPolyCoeff] at h
      split_ifs at h with hr
      · exact ⟨r, List.mem_cons_self r rs, (Option.some_inj.mp h), hr⟩
      · obtain ⟨r', hmem, hrest⟩ := ih h
        exact ⟨r', List.mem_cons_of_mem r hmem, hrest⟩

lemma find_first (pre : List RangePoly) (r : RangePoly) (post : List RangePoly) (v : ℚ)
    (hpre : ∀ x ∈ pre, ¬(x.min ≤ v ∧ v ≤ x.max)) (h1 : r.min ≤ v) (h2 : v ≤ r.max) :
    FindPolyCoeff (pre ++ r :: post) v = some r.poly := by
  induction pre with
  | nil =>
      show FindPolyCoeff (r :: post) v = some r.poly
      simp only [FindPolyCoeff]
      rw [if_pos ⟨h1, h2⟩]
  | cons a pre ih =>
      show FindPolyCoeff (a :: (pre ++ r :: post)) v = some r.poly
      simp only [FindPolyCoeff]
      rw [if_neg (hpre a (List.mem_cons_self a pre))]
      exact ih fun x hx => hpre x (List.mem_cons_of_mem a hx)

lemma cover_isSome (rs : List RangePoly) (v : ℚ) (hord : orderedB rs = true)
    (hlo : headMin rs ≤ v) (hhi : v ≤ lastMax rs) (hne : rs ≠ []) :
    ∃ c, FindPolyCoeff rs v = some c := by
  induction rs with
  | nil => exact absurd rfl hne
  | cons a rs ih =>
      cases rs with
      | nil =>
          refine ⟨a.poly, ?_⟩
          simp only [FindPolyCoeff]
          rw [if_pos ⟨hlo, hhi⟩]
      | cons b rs2 =>
          simp only [orderedB, Bool.and_eq_true, decide_eq_true_eq] at hord
          obtain ⟨⟨hab, htouch⟩, hord2⟩ := hord
          by_cases hv : v ≤ a.max
          · refine ⟨a.poly, ?_⟩
            simp only [FindPolyCoeff]
            rw [if_pos ⟨hlo, hv⟩]
          · have hv2 : headMin (b :: rs2) ≤ v := by
              show b.min ≤ v
              rw [← htouch]
              exact le_of_lt (not_le.mp hv)
            obtain ⟨c, hc⟩ := ih hord2 hv2 hhi (by simp)
            refine ⟨c, ?_⟩
            simp only [FindPolyCoeff]
            rw [if_neg fun hcon => hv hcon.2]
            exact hc

lemma headMin_le_lastMax (rs : List RangePoly) (hord : orderedB rs = true)
    (hne : rs ≠ []) : headMin rs ≤ lastMax rs := by
  induction rs with
  | nil => exact absurd rfl hne
  | cons a rs ih =>
      cases rs with
      | nil =>
          simp only [orderedB, decide_eq_true_eq] at hord
          exact hord
      | cons b rs2 =>
          simp only [orderedB, Bool.and_eq_true, decide_eq_true_eq] at hord
          obtain ⟨⟨hab, htouch⟩, hord2⟩ := hord
          show a.min ≤ lastMax (b :: rs2)
          calc a.min ≤ a.max := hab
            _ = b.min := htouch
            _ ≤ lastMax (b :: rs2) := ih hord2 (by simp)

lemma find_none_low (rs : List RangePoly) (v : ℚ) (hord : orderedB rs = true)
    (h : v < headMin rs) : FindPolyCoeff rs v = none := by
  induction rs with
  | nil => rfl
  | cons a rs ih =>
      have ha : ¬(a.min ≤ v ∧ v ≤ a.max) := fun hcon => absurd hcon.1 (not_le.mpr h)
      cases rs with
      | nil =>
          simp only [FindPolyCoeff]
          rw [if_neg ha]
      | cons b rs2 =>
          simp only [orderedB, Bool.and_eq_true, decide_eq_true_eq] at hord
          obtain ⟨⟨hab, htouch⟩, hord2⟩ := hord
          simp only [FindPolyCoeff]
          rw [if_neg ha]
          exact ih hord2 (lt_of_lt_of_le h (le_trans hab (le_of_eq htouch)))

lemma find_none_high (rs : List RangePoly) (v : ℚ) (hord : orderedB rs = true)
    (h : lastMax rs < v) : FindPolyCoeff rs v = none := by
  induction rs with
  | nil => rfl
  | cons a rs ih =>
      cases rs with
      | nil =>
          simp only [FindPolyCoeff]
          rw [if_neg fun hcon => absurd hcon.2 (not_le.mpr h)]
      | cons b rs2 =>
          simp only [orderedB, Bool.and_eq_true, decide_eq_true_eq] at hord
          obtain ⟨⟨hab, htouch⟩, hord2⟩ := hord
          have hmax : a.max < v := by
            calc a.max = b.min := htouch
              _ ≤ lastMax (b :: rs2) := headMin_le_lastMax _ hord2 (by simp)
              _ < v := h
          simp only [FindPolyCoeff]
          rw [if_neg fun hcon => absurd hcon.2 (not_le.mpr hmax)]
          exact ih hord2 h

/-- Every range of the table has its polynomial bounded strictly above the
failure sentinel over the whole range. -/
def tableLBok (tbl : List RangePoly) : Bool :=
  tbl.all fun r => decide (TC_CONVERSION_FAILED < lbound r.poly r.min r.max)

lemma RangeConvert_in_domain (tbl : List RangePoly) (v : ℚ)
    (hord : orderedB tbl = true) (hlb : tableLBok tbl = true) (hne : tbl ≠ [])
    (hlo : headMin tbl ≤ v) (hhi : v ≤ lastMax tbl) :
    ∃ c, FindPolyCoeff tbl v = some c ∧
      RangeConvert tbl v = Polynomial_Evaluate c v ∧
      RangeConvert tbl v ≠ TC_CONVERSION_FAILED := by
  obtain ⟨c, hc⟩ := cover_isSome tbl v hord hlo hhi hne
  obtain ⟨r, hr, hpoly, h1, h2⟩ := find_mem tbl v c hc
  have hlb1 : TC_CONVERSION_FAILED < lbound r.poly r.min r.max := by
    have := List.all_eq_true.mp hlb r hr
    exact of_decide_eq_true this
  have hle : lbound r.poly r.min r.max ≤ Polynomial_Evaluate r.poly v :=
    lbound_le r.poly r.min r.max v h1 h2
  have hgt : TC_CONVERSION_FAILED < Polynomial_Evaluate c v := by
    rw [← hpoly]
    exact lt_of_lt_of_le hlb1 hle
  refine ⟨c, hc, ?_, ?_⟩
  · unfold RangeConvert
    rw [hc]
  · unfold RangeConvert
    rw [hc]
    exact ne_of_gt hgt

lemma RangeConvert_out_low (tbl : List RangePoly) (v : ℚ)
    (hord : orderedB tbl = true) (h : v < headMin tbl) :
    RangeConvert tbl v = TC_CONVERSION_FAILED := by
  unfold RangeConvert
  rw [find_none_low tbl v hord h]

lemma RangeConvert_out_high (tbl : List RangePoly) (v : ℚ)
    (hord : orderedB tbl = true) (h : lastMax tbl < v) :
    RangeConvert tbl v = TC_CONVERSION_FAILED := by
  unfold RangeConvert
  rw [find_none_high tbl v hord h]

/-! ### Concrete facts about each table -/

lemma TC_R_mVToTemp_ordered : orderedB TC_R_mVToTemp = true := by
  simp only [orderedB, TC_R_mVToTemp, Bool.and_eq_true, decide_eq_true_eq]
  norm_num

lemma TC_R_TempToMV_ordered : orderedB TC_R_TempToMV = true := by
  simp only [orderedB, TC_R_TempToMV, Bool.and_eq_true, decide_eq_true_eq]
  norm_num

lemma TC_S_mVToTemp_ordered : orderedB TC_S_mVToTemp = true := by
  simp only [orderedB, TC_S_mVToTemp, Bool.and_eq_true, decide_eq_true_eq]
  norm_num

lemma TC_S_TempToMV_ordered : orderedB TC_S_TempToMV = true := by
  simp only [orderedB, TC_S_TempToMV, Bool.and_eq_true, decide_eq_true_eq]
  norm_num

lemma TC_B_mVToTemp_ordered : orderedB TC_B_mVToTemp = true := by
  simp only [orderedB, TC_B_mVToTemp, Bool.and_eq_true, decide_eq_true_eq]
  norm_num

lemma TC_B_TempToMV_ordered : orderedB TC_B_TempToMV = true := by
  simp only [orderedB, TC_B_TempToMV, Bool.and_eq_true, decide_eq_true_eq]
  norm_num

lemma TC_J_mVToTemp_ordered : orderedB TC_J_mVToTemp = true := by
  simp only [orderedB, TC_J_mVToTemp, Bool.and_eq_true, decide_eq_true_eq]
  norm_num

lemma TC_J_TempToMV_ordered : orderedB TC_J_TempToMV = true := by
  simp only [orderedB, TC_J_TempToMV, Bool.and_eq_true, decide_eq_true_eq]
  norm_num

lemma TC_T_mVToTemp_ordered : orderedB TC_T_mVToTemp = true := by
  simp only [orderedB, TC_T_mVToTemp, Bool.and_eq_true, decide_eq_true_eq]
  norm_num

lemma TC_T_TempToMV_ordered : orderedB TC_T_TempToMV = true := by
  simp only [orderedB, TC_T_TempToMV, Bool.and_eq_true, decide_eq_true_eq]
  norm_num

lemma TC_E_mVToTemp_ordered : orderedB TC_E_mVToTemp = true := by
  simp only [orderedB, TC_E_mVToTemp, Bool.and_eq_true, decide_eq_true_eq]
  norm_num

lemma TC_E_TempToMV_ordered : orderedB TC_E_TempToMV = true := by
  simp only [orderedB, TC_E_TempToMV, Bool.and_eq_true, decide_eq_true_eq]
  norm_num

lemma TC_K_mVToTemp_ordered : orderedB TC_K_mVToTemp = true := by
  simp only [orderedB, TC_K_mVToTemp, Bool.and_eq_true, decide_eq_true_eq]
  norm_num

lemma TC_K_TempToMV_ordered : orderedB TC_K_TempToMV = true := by
  simp only [orderedB, TC_K_TempToMV, Bool.and_eq_true, decide_eq_true_eq]
  norm_num

lemma TC_N_mVToTemp_ordered : orderedB TC_N_mVToTemp = true := by
  simp only [orderedB, TC_N_mVToTemp, Bool.and_eq_true, decide_eq_true_eq]
  norm_num

lemma TC_N_TempToMV_ordered : orderedB TC_N_TempToMV = true := by
  simp only [orderedB, TC_N_TempToMV, Bool.and_eq_true, decide_eq_true_eq]
  norm_num

lemma TC_R_mVToTemp_lbok : tableLBok TC_R_mVToTemp = true := by
  simp only [tableLBok, TC_R_mVToTemp, List.all_cons, List.all_nil, Bool.and_eq_true,
    decide_eq_true_eq, Bool.and_true]
  norm_num [lbound, termLB, TC_CONVERSION_FAILED, Finset.sum_range_succ, List.getD,
    abs_eq_max_neg, max_def, TC_Coeff_R_mVToTemp_Range1, TC_Coeff_R_mVToTemp_Range2, TC_Coeff_R_mVToTemp_Range3, TC_Coeff_R_mVToTemp_Range4]

lemma TC_S_mVToTemp_lbok : tableLBok TC_S_mVToTemp = true := by
  simp only [tableLBok, TC_S_mVToTemp, List.all_cons, List.all_nil, Bool.and_eq_true,
    decide_eq_true_eq, Bool.and_true]
  norm_num [lbound, termLB, TC_CONVERSION_FAILED, Finset.sum_range_succ, List.getD,
    abs_eq_max_neg, max_def, TC_Coeff_S_mVToTemp_Range1, TC_Coeff_S_mVToTemp_Range2, TC_Coeff_S_mVToTemp_Range3, TC_Coeff_S_mVToTemp_Range4]

lemma TC_B_mVToTemp_lbok : tableLBok TC_B_mVToTemp = true := by
  simp only [tableLBok, TC_B_mVToTemp, List.all_cons, List.all_nil, Bool.and_eq_true,
    decide_eq_true_eq, Bool.and_true]
  norm_num [lbound, termLB, TC_CONVERSION_FAILED, Finset.sum_range_succ, List.getD,
    abs_eq_max_neg, max_def, TC_Coeff_B_mVToTemp_Range1, TC_Coeff_B_mVToTemp_Range2]

lemma TC_J_mVToTemp_lbok : tableLBok TC_J_mVToTemp = true := by
  simp only [tableLBok, TC_J_mVToTemp, List.all_cons, List.all_nil, Bool.and_eq_true,
    decide_eq_true_eq, Bool.and_true]
  norm_num [lbound, termLB, TC_CONVERSION_FAILED, Finset.sum_range_succ, List.getD,
    abs_eq_max_neg, max_def, TC_Coeff_J_mVToTemp_Range1, TC_Coeff_J_mVToTemp_Range2, TC_Coeff_J_mVToTemp_Range3]

lemma TC_T_mVToTemp_lbok : tableLBok TC_T_mVToTemp = true := by
  simp only [tableLBok, TC_T_mVToTemp, List.all_cons, List.all_nil, Bool.and_eq_true,
    decide_eq_true_eq, Bool.and_true]
  norm_num [lbound, termLB, TC_CONVERSION_FAILED, Finset.sum_range_succ, List.getD,
    abs_eq_max_neg, max_def, TC_Coeff_T_mVToTemp_Range1, TC_Coeff_T_mVToTemp_Range2]

lemma TC_E_mVToTemp_lbok : tableLBok TC_E_mVToTemp = true := by
  simp only [tableLBok, TC_E_mVToTemp, List.all_cons, List.all_nil, Bool.and_eq_true,
    decide_eq_true_eq, Bool.and_true]
  norm_num [lbound, termLB, TC_CONVERSION_FAILED, Finset.sum_range_succ, List.getD,
    abs_eq_max_neg, max_def, TC_Coeff_E_mVToTemp_Range1, TC_Coeff_E_mVToTemp_Range2]

lemma TC_K_mVToTemp_lbok : tableLBok TC_K_mVToTemp = true := by
  simp only [tableLBok, TC_K_mVToTemp, List.all_cons, List.all_nil, Bool.and_eq_true,
    decide_eq_true_eq, Bool.and_true]
  norm_num [lbound, termLB, TC_CONVERSION_FAILED, Finset.sum_range_succ, List.getD,
    abs_eq_max_neg, max_def, TC_Coeff_K_mVToTemp_Range1, TC_Coeff_K_mVToTemp_Range2, TC_Coeff_K_mVToTemp_Range3]

lemma TC_N_mVToTemp_lbok : tableLBok TC_N_mVToTemp = true := by
  simp only [tableLBok, TC_N_mVToTemp, List.all_cons, List.all_nil, Bool.and_eq_true,
    decide_eq_true_eq, Bool.and_true]
  norm_num [lbound, termLB, TC_CONVERSION_FAILED, Finset.sum_range_succ, List.getD,
    abs_eq_max_neg, max_def, TC_Coeff_N_mVToTemp_Range1, TC_Coeff_N_mVToTemp_Range2, TC_Coeff_N_mVToTemp_Range3]

/-! ### Dispatch lemmas: the switch of each public function -/

lemma calcTemp_eq_R (v : ℚ) :
    TC_CalculateTemperature TC_TYPE_R v = RangeConvert TC_R_mVToTemp v := by
  norm_num [TC_CalculateTemperature, TC_TYPE_R]

lemma calcTemp_eq_S (v : ℚ) :
    TC_CalculateTemperature TC_TYPE_S v = RangeConvert TC_S_mVToTemp v := by
  norm_num [TC_CalculateTemperature, TC_TYPE_R, TC_TYPE_S]

lemma calcTemp_eq_B (v : ℚ) :
    TC_CalculateTemperature TC_TYPE_B v = RangeConvert TC_B_mVToTemp v := by
  norm_num [TC_CalculateTemperature, TC_TYPE_R, TC_TYPE_S, TC_TYPE_B]

lemma calcTemp_eq_J (v : ℚ) :
    TC_CalculateTemperature TC_TYPE_J v = RangeConvert TC_J_mVToTemp v := by
  norm_num [TC_CalculateTemperature, TC_TYPE_R, TC_TYPE_S, TC_TYPE_B, TC_TYPE_J]

lemma calcTemp_eq_T (v : ℚ) :
    TC_CalculateTemperature TC_TYPE_T v = RangeConvert TC_T_mVToTemp v := by
  norm_num [TC_CalculateTemperature, TC_TYPE_R, TC_TYPE_S, TC_TYPE_B, TC_TYPE_J, TC_TYPE_T]

lemma calcTemp_eq_E (v : ℚ) :
    TC_CalculateTemperature TC_TYPE_E v = RangeConvert TC_E_mVToTemp v := by
  norm_num [TC_CalculateTemperature, TC_TYPE_R, TC_TYPE_S, TC_TYPE_B, TC_TYPE_J, TC_TYPE_T,
    TC_TYPE_E]

lemma calcTemp_eq_K (v : ℚ) :
    TC_CalculateTemperature TC_TYPE_K v = RangeConvert TC_K_mVToTemp v := by
  norm_num [TC_CalculateTemperature, TC_TYPE_R, TC_TYPE_S, TC_TYPE_B, TC_TYPE_J, TC_TYPE_T,
    TC_TYPE_E, TC_TYPE_K]

lemma calcTemp_eq_N (v : ℚ) :
    TC_CalculateTemperature TC_TYPE_N v = RangeConvert TC_N_mVToTemp v := by
  norm_num [TC_CalculateTemperature, TC_TYPE_R, TC_TYPE_S, TC_TYPE_B, TC_TYPE_J, TC_TYPE_T,
    TC_TYPE_E, TC_TYPE_K, TC_TYPE_N]

lemma calcVolt_eq_R (expf : ℚ → ℚ) (t : ℚ) :
    TC_CalculateVoltage expf TC_TYPE_R t = RangeConvert TC_R_TempToMV t := by
  norm_num [TC_CalculateVoltage, TC_TYPE_R]

lemma calcVolt_eq_S (expf : ℚ → ℚ) (t : ℚ) :
    TC_CalculateVoltage expf TC_TYPE_S t = RangeConvert TC_S_TempToMV t := by
  norm_num [TC_CalculateVoltage, TC_TYPE_R, TC_TYPE_S]

lemma calcVolt_eq_B (expf : ℚ → ℚ) (t : ℚ) :
    TC_CalculateVoltage expf TC_TYPE_B t = RangeConvert TC_B_TempToMV t := by
  norm_num [TC_CalculateVoltage, TC_TYPE_R, TC_TYPE_S, TC_TYPE_B]

lemma calcVolt_eq_J (expf : ℚ → ℚ) (t : ℚ) :
    TC_CalculateVoltage expf TC_TYPE_J t = RangeConvert TC_J_TempToMV t := by
  norm_num [TC_CalculateVoltage, TC_TYPE_R, TC_TYPE_S, TC_TYPE_B, TC_TYPE_J]

lemma calcVolt_eq_T (expf : ℚ → ℚ) (t : ℚ) :
    TC_CalculateVoltage expf TC_TYPE_T t = RangeConvert TC_T_TempToMV t := by
  norm_num [TC_CalculateVoltage, TC_TYPE_R, TC_TYPE_S, TC_TYPE_B, TC_TYPE_J, TC_TYPE_T]

lemma calcVolt_eq_E (expf : ℚ → ℚ) (t : ℚ) :
    TC_CalculateVoltage expf TC_TYPE_E t = RangeConvert TC_E_TempToMV t := by
  norm_num [TC_CalculateVoltage, TC_TYPE_R, TC_TYPE_S, TC_TYPE_B, TC_TYPE_J, TC_TYPE_T,
    TC_TYPE_E]

lemma calcVolt_eq_N (expf : ℚ → ℚ) (t : ℚ) :
    TC_CalculateVoltage expf TC_TYPE_N t = RangeConvert TC_N_TempToMV t := by
  norm_num [TC_CalculateVoltage, TC_TYPE_R, TC_TYPE_S, TC_TYPE_B, TC_TYPE_J, TC_TYPE_T,
    TC_TYPE_E, TC_TYPE_K, TC_TYPE_N]

/-- The `TC_TYPE_K` case of `TC_CalculateVoltage` with the type dispatch
resolved. -/
lemma calcVolt_eq_K (expf : ℚ → ℚ) (t : ℚ) :
    TC_CalculateVoltage expf TC_TYPE_K t =
      (if 0 < t then
        Polynomial_Evaluate
          (if -270.5 ≤ t ∧ t ≤ 0 then TC_Coeff_K_TempToMV_Range1
           else if 0 < t ∧ t ≤ 1372.5 then TC_Coeff_K_TempToMV_Range2
           else []) t + TC_K_Correction expf t
      else
        Polynomial_Evaluate
          (if -270.5 ≤ t ∧ t ≤ 0 then TC_Coeff_K_TempToMV_Range1
           else if 0 < t ∧ t ≤ 1372.5 then TC_Coeff_K_TempToMV_Range2
           else []) t) := by
  norm_num [TC_CalculateVoltage, TC_TYPE_R, TC_TYPE_S, TC_TYPE_B, TC_TYPE_J, TC_TYPE_T,
    TC_TYPE_E, TC_TYPE_K]

lemma calcVolt_K_range1 (expf : ℚ → ℚ) (t : ℚ) (h1 : -270.5 ≤ t) (h2 : t ≤ 0) :
    TC_CalculateVoltage expf TC_TYPE_K t =
      Polynomial_Evaluate TC_Coeff_K_TempToMV_Range1 t := by
  rw [calcVolt_eq_K, if_neg (not_lt.mpr h2), if_pos ⟨h1, h2⟩]

lemma calcVolt_K_range2 (expf : ℚ → ℚ) (t : ℚ) (h1 : 0 < t) (h2 : t ≤ 1372.5) :
    TC_CalculateVoltage expf TC_TYPE_K t =
      Polynomial_Evaluate TC_Coeff_K_TempToMV_Range2 t + TC_K_Correction expf t := by
  rw [calcVolt_eq_K, if_pos h1, if_neg fun hcon => absurd h1 (not_lt.mpr hcon.2),
    if_pos ⟨h1, h2⟩]

lemma calcVolt_K_below (expf : ℚ → ℚ) (t : ℚ) (h : t < -270.5) :
    TC_CalculateVoltage expf TC_TYPE_K t = 0 := by
  have h0 : ¬(0 < t) := by
    rw [not_lt]
    calc t ≤ -270.5 := le_of_lt h
      _ ≤ 0 := by norm_num
  rw [calcVolt_eq_K, if_neg h0, if_neg fun hcon => absurd hcon.1 (not_le.mpr h),
    if_neg fun hcon => absurd hcon.1 h0, Polynomial_Evaluate_nil]

lemma calcVolt_K_above (expf : ℚ → ℚ) (t : ℚ) (h : 1372.5 < t) :
    TC_CalculateVoltage expf TC_TYPE_K t = TC_K_Correction expf t := by
  have h0 : 0 < t := by
    calc (0 : ℚ) < 1372.5 := by norm_num
      _ < t := h
  have hr1 : ¬(-270.5 ≤ t ∧ t ≤ 0) := fun hcon => absurd h0 (not_lt.mpr hcon.2)
  have hr2 : ¬(0 < t ∧ t ≤ 1372.5) := fun hcon => absurd hcon.2 (not_le.mpr h)
  rw [calcVolt_eq_K, if_pos h0, if_neg hr1, if_neg hr2, Polynomial_Evaluate_nil, zero_add]

/-! ### Claim theorems -/

/-- C3: for every valid thermocouple type, `TC_CalculateTemperature`
returns the matched range's polynomial evaluated at the voltage (a
numeric result, distinct from the failure sentinel) for every voltage in
the type's supported voltage domain of §6, endpoints included, and
returns the failure sentinel for every voltage strictly outside that
domain. -/
theorem claim_C3_calcTemp_domain (v : ℚ) :
    ((-0.228 : ℚ) ≤ v → v ≤ 21.105 →
      ∃ c, FindPolyCoeff TC_R_mVToTemp v = some c ∧
        TC_CalculateTemperature TC_TYPE_R v = Polynomial_Evaluate c v ∧
        TC_CalculateTemperature TC_TYPE_R v ≠ TC_CONVERSION_FAILED) ∧
    ((v < -0.228 ∨ (21.105 : ℚ) < v) →
      TC_CalculateTemperature TC_TYPE_R v = TC_CONVERSION_FAILED) ∧
    ((-0.237 : ℚ) ≤ v → v ≤ 18.697 →
      ∃ c, FindPolyCoeff TC_S_mVToTemp v = some c ∧
        TC_CalculateTemperature TC_TYPE_S v = Polynomial_Evaluate c v ∧
        TC_CalculateTemperature TC_TYPE_S v ≠ TC_CONVERSION_FAILED) ∧
    ((v < -0.237 ∨ (18.697 : ℚ) < v) →
      TC_CalculateTemperature TC_TYPE_S v = TC_CONVERSION_FAILED) ∧
    ((0.292 : ℚ) ≤ v → v ≤ 13.825 →
      ∃ c, FindPolyCoeff TC_B_mVToTemp v = some c ∧
        TC_CalculateTemperature TC_TYPE_B v = Polynomial_Evaluate c v ∧
        TC_CalculateTemperature TC_TYPE_B v ≠ TC_CONVERSION_FAILED) ∧
    ((v < 0.292 ∨ (13.825 : ℚ) < v) →
      TC_CalculateTemperature TC_TYPE_B v = TC_CONVERSION_FAILED) ∧
    ((-8.1 : ℚ) ≤ v → v ≤ 69.58 →
      ∃ c, FindPolyCoeff TC_J_mVToTemp v = some c ∧
        TC_CalculateTemperature TC_TYPE_J v = Polynomial_Evaluate c v ∧
        TC_CalculateTemperature TC_TYPE_J v ≠ TC_CONVERSION_FAILED) ∧
    ((v < -8.1 ∨ (69.58 : ℚ) < v) →
      TC_CalculateTemperature TC_TYPE_J v = TC_CONVERSION_FAILED) ∧
    ((-5.61 : ℚ) ≤ v → v ≤ 20.88 →
      ∃ c, FindPolyCoeff TC_T_mVToTemp v = some c ∧
        TC_CalculateTemperature TC_TYPE_T v = Polynomial_Evaluate c v ∧
        TC_CalculateTemperature TC_TYPE_T v ≠ TC_CONVERSION_FAILED) ∧
    ((v < -5.61 ∨ (20.88 : ℚ) < v) →
      TC_CalculateTemperature TC_TYPE_T v = TC_CONVERSION_FAILED) ∧
    ((-8.84 : ℚ) ≤ v → v ≤ 76.38 →
      ∃ c, FindPolyCoeff TC_E_mVToTemp v = some c ∧
        TC_CalculateTemperature TC_TYPE_E v = Polynomial_Evaluate c v ∧
        TC_CalculateTemperature TC_TYPE_E v ≠ TC_CONVERSION_FAILED) ∧
    ((v < -8.84 ∨ (76.38 : ℚ) < v) →
      TC_CalculateTemperature TC_TYPE_E v = TC_CONVERSION_FAILED) ∧
    ((-5.895 : ℚ) ≤ v → v ≤ 52.425 →
      ∃ c, FindPolyCoeff TC_K_mVToTemp v = some c ∧
        TC_CalculateTemperature TC_TYPE_K v = Polynomial_Evaluate c v ∧
        TC_CalculateTemperature TC_TYPE_K v ≠ TC_CONVERSION_FAILED) ∧
    ((v < -5.895 ∨ (52.425 : ℚ) < v) →
      TC_CalculateTemperature TC_TYPE_K v = TC_CONVERSION_FAILED) ∧
    ((-4 : ℚ) ≤ v → v ≤ 47.52 →
      ∃ c, FindPolyCoeff TC_N_mVToTemp v = some c ∧
        TC_CalculateTemperature TC_TYPE_N v = Polynomial_Evaluate c v ∧
        TC_CalculateTemperature TC_TYPE_N v ≠ TC_CONVERSION_FAILED) ∧
    ((v < -4 ∨ (47.52 : ℚ) < v) →
      TC_CalculateTemperature TC_TYPE_N v = TC_CONVERSION_FAILED) := by
  refine ⟨?_, ?_, ?_, ?_, ?_, ?_, ?_, ?_, ?_, ?_, ?_, ?_, ?_, ?_, ?_, ?_⟩
  · intro h1 h2
    rw [calcTemp_eq_R]
    exact RangeConvert_in_domain TC_R_mVToTemp v TC_R_mVToTemp_ordered TC_R_mVToTemp_lbok
      (List.cons_ne_nil _ _) h1 h2
  · intro h
    rw [calcTemp_eq_R]
    rcases h with h | h
    · exact RangeConvert_out_low TC_R_mVToTemp v TC_R_mVToTemp_ordered h
    · exact RangeConvert_out_high TC_R_mVToTemp v TC_R_mVToTemp_ordered h
  · intro h1 h2
    rw [calcTemp_eq_S]
    exact RangeConvert_in_domain TC_S_mVToTemp v TC_S_mVToTemp_ordered TC_S_mVToTemp_lbok
      (List.cons_ne_nil _ _) h1 h2
  · intro h
    rw [calcTemp_eq_S]
    rcases h with h | h
    · exact RangeConvert_out_low TC_S_mVToTemp v TC_S_mVToTemp_ordered h
    · exact RangeConvert_out_high TC_S_mVToTemp v TC_S_mVToTemp_ordered h
  · intro h1 h2
    rw [calcTemp_eq_B]
    exact RangeConvert_in_domain TC_B_mVToTemp v TC_B_mVToTemp_ordered TC_B_mVToTemp_lbok
      (List.cons_ne_nil _ _) h1 h2
  · intro h
    rw [calcTemp_eq_B]
    rcases h with h | h
    · exact RangeConvert_out_low TC_B_mVToTemp v TC_B_mVToTemp_ordered h
    · exact RangeConvert_out_high TC_B_mVToTemp v TC_B_mVToTemp_ordered h
  · intro h1 h2
    rw [calcTemp_eq_J]
    exact RangeConvert_in_domain TC_J_mVToTemp v TC_J_mVToTemp_ordered TC_J_mVToTemp_lbok
      (List.cons_ne_nil _ _) h1 h2
  · intro h
    rw [calcTemp_eq_J]
    rcases h with h | h
    · exact RangeConvert_out_low TC_J_mVToTemp v TC_J_mVToTemp_ordered h
    · exact RangeConvert_out_high TC_J_mVToTemp v TC_J_mVToTemp_ordered h
  · intro h1 h2
    rw [calcTemp_eq_T]
    exact RangeConvert_in_domain TC_T_mVToTemp v TC_T_mVToTemp_ordered TC_T_mVToTemp_lbok
      (List.cons_ne_nil _ _) h1 h2
  · intro h
    rw [calcTemp_eq_T]
    rcases h with h | h
    · exact RangeConvert_out_low TC_T_mVToTemp v TC_T_mVToTemp_ordered h
    · exact RangeConvert_out_high TC_T_mVToTemp v TC_T_mVToTemp_ordered h
  · intro h1 h2
    rw [calcTemp_eq_E]
    exact RangeConvert_in_domain TC_E_mVToTemp v TC_E_mVToTemp_ordered TC_E_mVToTemp_lbok
      (List.cons_ne_nil _ _) h1 h2
  · intro h
    rw [calcTemp_eq_E]
    rcases h with h | h
    · exact RangeConvert_out_low TC_E_mVToTemp v TC_E_mVToTemp_ordered h
    · exact RangeConvert_out_high TC_E_mVToTemp v TC_E_mVToTemp_ordered h
  · intro h1 h2
    rw [calcTemp_eq_K]
    exact RangeConvert_in_domain TC_K_mVToTemp v TC_K_mVToTemp_ordered TC_K_mVToTemp_lbok
      (List.cons_ne_nil _ _) h1 h2
  · intro h
    rw [calcTemp_eq_K]
    rcases h with h | h
    · exact RangeConvert_out_low TC_K_mVToTemp v TC_K_mVToTemp_ordered h
    · exact RangeConvert_out_high TC_K_mVToTemp v TC_K_mVToTemp_ordered h
  · intro h1 h2
    rw [calcTemp_eq_N]
    exact RangeConvert_in_domain TC_N_mVToTemp v TC_N_mVToTemp_ordered TC_N_mVToTemp_lbok
      (List.cons_ne_nil _ _) h1 h2
  · intro h
    rw [calcTemp_eq_N]
    rcases h with h | h
    · exact RangeConvert_out_low TC_N_mVToTemp v TC_N_mVToTemp_ordered h
    · exact RangeConvert_out_high TC_N_mVToTemp v TC_N_mVToTemp_ordered h

/-- C7: every (type, direction) coefficient table is ordered with
contiguous, non-overlapping ranges (the max bound of entry i equals the
min bound of entry i+1, and min ≤ max within each entry), and the union
of the ranges is exactly the type's full rated domain of §6 for that
direction.  The type-K temperature→voltage direction is the table
`TC_K_TempToMV` read off the if/else bounds of the source. -/
theorem claim_C7_tables_contiguous_cover :
    (orderedB TC_R_mVToTemp = true ∧
      headMin TC_R_mVToTemp = -0.228 ∧ lastMax TC_R_mVToTemp = 21.105) ∧
    (orderedB TC_S_mVToTemp = true ∧
      headMin TC_S_mVToTemp = -0.237 ∧ lastMax TC_S_mVToTemp = 18.697) ∧
    (orderedB TC_B_mVToTemp = true ∧
      headMin TC_B_mVToTemp = 0.292 ∧ lastMax TC_B_mVToTemp = 13.825) ∧
    (orderedB TC_J_mVToTemp = true ∧
      headMin TC_J_mVToTemp = -8.1 ∧ lastMax TC_J_mVToTemp = 69.58) ∧
    (orderedB TC_T_mVToTemp = true ∧
      headMin TC_T_mVToTemp = -5.61 ∧ lastMax TC_T_mVToTemp = 20.88) ∧
    (orderedB TC_E_mVToTemp = true ∧
      headMin TC_E_mVToTemp = -8.84 ∧ lastMax TC_E_mVToTemp = 76.38) ∧
    (orderedB TC_K_mVToTemp = true ∧
      headMin TC_K_mVToTemp = -5.895 ∧ lastMax TC_K_mVToTemp = 52.425) ∧
    (orderedB TC_N_mVToTemp = true ∧
      headMin TC_N_mVToTemp = -4 ∧ lastMax TC_N_mVToTemp = 47.52) ∧
    (orderedB TC_R_TempToMV = true ∧
      headMin TC_R_TempToMV = -50.5 ∧ lastMax TC_R_TempToMV = 1768.5) ∧
    (orderedB TC_S_TempToMV = true ∧
      headMin TC_S_TempToMV = -50.5 ∧ lastMax TC_S_TempToMV = 1768.5) ∧
    (orderedB TC_B_TempToMV = true ∧
      headMin TC_B_TempToMV = -0.5 ∧ lastMax TC_B_TempToMV = 1820.5) ∧
    (orderedB TC_J_TempToMV = true ∧
      headMin TC_J_TempToMV = -210.5 ∧ lastMax TC_J_TempToMV = 1200.5) ∧
    (orderedB TC_T_TempToMV = true ∧
      headMin TC_T_TempToMV = -270.5 ∧ lastMax TC_T_TempToMV = 400.5) ∧
    (orderedB TC_E_TempToMV = true ∧
      headMin TC_E_TempToMV = -270.5 ∧ lastMax TC_E_TempToMV = 1000.5) ∧
    (orderedB TC_K_TempToMV = true ∧
      headMin TC_K_TempToMV = -270.5 ∧ lastMax TC_K_TempToMV = 1372.5) ∧
    (orderedB TC_N_TempToMV = true ∧
      headMin TC_N_TempToMV = -270.5 ∧ lastMax TC_N_TempToMV = 1300.5) :=
  ⟨⟨TC_R_mVToTemp_ordered, rfl, rfl⟩,
   ⟨TC_S_mVToTemp_ordered, rfl, rfl⟩,
   ⟨TC_B_mVToTemp_ordered, rfl, rfl⟩,
   ⟨TC_J_mVToTemp_ordered, rfl, rfl⟩,
   ⟨TC_T_mVToTemp_ordered, rfl, rfl⟩,
   ⟨TC_E_mVToTemp_ordered, rfl, rfl⟩,
   ⟨TC_K_mVToTemp_ordered, rfl, rfl⟩,
   ⟨TC_N_mVToTemp_ordered, rfl, rfl⟩,
   ⟨TC_R_TempToMV_ordered, rfl, rfl⟩,
   ⟨TC_S_TempToMV_ordered, rfl, rfl⟩,
   ⟨TC_B_TempToMV_ordered, rfl, rfl⟩,
   ⟨TC_J_TempToMV_ordered, rfl, rfl⟩,
   ⟨TC_T_TempToMV_ordered, rfl, rfl⟩,
   ⟨TC_E_TempToMV_ordered, rfl, rfl⟩,
   ⟨TC_K_TempToMV_ordered, rfl, rfl⟩,
   ⟨TC_N_TempToMV_ordered, rfl, rfl⟩⟩

/-- C1 fails on the code (the claim asserts the failure sentinel for every
out-of-domain temperature of every valid type): for type K the
out-of-domain temperature −271 °C returns 0, not `TC_CONVERSION_FAILED`,
because the `TC_TYPE_K` case calls `Polynomial_Evaluate` with the
NULL/length-0 coefficient pair unconditionally, overwriting the sentinel
that its own `else` branch had just stored.  This holds for every model
of the library `exp`. -/
theorem claim_C1_typeK_out_of_domain_returns_zero :
    (∀ expf : ℚ → ℚ, TC_CalculateVoltage expf TC_TYPE_K (-271) = 0) ∧
    (0 : ℚ) ≠ TC_CONVERSION_FAILED :=
  ⟨fun expf => calcVolt_K_below expf (-271) (by norm_num),
   by norm_num [TC_CONVERSION_FAILED]⟩

/-- C2: in `TC_CalculateVoltage`, for type K exactly when the temperature
is strictly positive (and a range matches), the result is the matched
polynomial plus the correction `A0 * exp(A1 * (t − A2)^2)` with
A0 = 0.1185976, A1 = −0.0001183432, A2 = 126.9686; at and below 0 °C the
result is the bare matched polynomial, and for every other type the
result is the bare matched polynomial whenever a range matches. -/
theorem claim_C2_typeK_correction (expf : ℚ → ℚ) (t : ℚ) :
    (0 < t → t ≤ 1372.5 →
      TC_CalculateVoltage expf TC_TYPE_K t =
        Polynomial_Evaluate TC_Coeff_K_TempToMV_Range2 t +
          TC_Coeff_K_TempToMV_A0 *
            expf (TC_Coeff_K_TempToMV_A1 * (t - TC_Coeff_K_TempToMV_A2) ^ 2)) ∧
    (-270.5 ≤ t → t ≤ 0 →
      TC_CalculateVoltage expf TC_TYPE_K t =
        Polynomial_Evaluate TC_Coeff_K_TempToMV_Range1 t) ∧
    (TC_Coeff_K_TempToMV_A0 = 0.1185976 ∧ TC_Coeff_K_TempToMV_A1 = -0.0001183432 ∧
      TC_Coeff_K_TempToMV_A2 = 126.9686) ∧
    (∀ p, FindPolyCoeff TC_R_TempToMV t = some p →
      TC_CalculateVoltage expf TC_TYPE_R t = Polynomial_Evaluate p t) ∧
    (∀ p, FindPolyCoeff TC_S_TempToMV t = some p →
      TC_CalculateVoltage expf TC_TYPE_S t = Polynomial_Evaluate p t) ∧
    (∀ p, FindPolyCoeff TC_B_TempToMV t = some p →
      TC_CalculateVoltage expf TC_TYPE_B t = Polynomial_Evaluate p t) ∧
    (∀ p, FindPolyCoeff TC_J_TempToMV t = some p →
      TC_CalculateVoltage expf TC_TYPE_J t = Polynomial_Evaluate p t) ∧
    (∀ p, FindPolyCoeff TC_T_TempToMV t = some p →
      TC_CalculateVoltage expf TC_TYPE_T t = Polynomial_Evaluate p t) ∧
    (∀ p, FindPolyCoeff TC_E_TempToMV t = some p →
      TC_CalculateVoltage expf TC_TYPE_E t = Polynomial_Evaluate p t) ∧
    (∀ p, FindPolyCoeff TC_N_TempToMV t = some p →
      TC_CalculateVoltage expf TC_TYPE_N t = Polynomial_Evaluate p t) := by
  refine ⟨?_, ?_, ⟨by norm_num [TC_Coeff_K_TempToMV_A0],
    by norm_num [TC_Coeff_K_TempToMV_A1], by norm_num [TC_Coeff_K_TempToMV_A2]⟩,
    ?_, ?_, ?_, ?_, ?_, ?_, ?_⟩
  · intro h1 h2
    exact calcVolt_K_range2 expf t h1 h2
  · intro h1 h2
    exact calcVolt_K_range1 expf t h1 h2
  · intro p hp
    rw [calcVolt_eq_R]
    unfold RangeConvert
    rw [hp]
  · intro p hp
    rw [calcVolt_eq_S]
    unfold RangeConvert
    rw [hp]
  · intro p hp
    rw [calcVolt_eq_B]
    unfold RangeConvert
    rw [hp]
  · intro p hp
    rw [calcVolt_eq_J]
    unfold RangeConvert
    rw [hp]
  · intro p hp
    rw [calcVolt_eq_T]
    unfold RangeConvert
    rw [hp]
  · intro p hp
    rw [calcVolt_eq_E]
    unfold RangeConvert
    rw [hp]
  · intro p hp
    rw [calcVolt_eq_N]
    unfold RangeConvert
    rw [hp]

/-- Witness for C2 at the concrete temperatures 100 °C (correction added)
and −156 °C (bare polynomial), with the identity as model of `exp`. -/
theorem claim_C2_witness :
    TC_CalculateVoltage (fun q => q) TC_TYPE_K 100 =
      Polynomial_Evaluate TC_Coeff_K_TempToMV_Range2 100 +
        TC_Coeff_K_TempToMV_A0 *
          (fun q => q) (TC_Coeff_K_TempToMV_A1 * ((100 : ℚ) - TC_Coeff_K_TempToMV_A2) ^ 2) ∧
    TC_CalculateVoltage (fun q => q) TC_TYPE_K (-156) =
      Polynomial_Evaluate TC_Coeff_K_TempToMV_Range1 (-156) :=
  ⟨(claim_C2_typeK_correction (fun q => q) 100).1 (by norm_num) (by norm_num),
   (claim_C2_typeK_correction (fun q => q) (-156)).2.1 (by norm_num) (by norm_num)⟩

/-- Witness for C3 at the concrete voltages 17.85 mV (inside the type-K
domain) and 53 mV (outside it). -/
theorem claim_C3_witness :
    (∃ c, FindPolyCoeff TC_K_mVToTemp 17.85 = some c ∧
      TC_CalculateTemperature TC_TYPE_K 17.85 = Polynomial_Evaluate c 17.85 ∧
      TC_CalculateTemperature TC_TYPE_K 17.85 ≠ TC_CONVERSION_FAILED) ∧
    TC_CalculateTemperature TC_TYPE_K 53 = TC_CONVERSION_FAILED := by
  constructor
  · obtain ⟨-, -, -, -, -, -, -, -, -, -, -, -, hKin, -, -, -⟩ :=
      claim_C3_calcTemp_domain (17.85 : ℚ)
    exact hKin (by norm_num) (by norm_num)
  · obtain ⟨-, -, -, -, -, -, -, -, -, -, -, -, -, hKout, -, -⟩ :=
      claim_C3_calcTemp_domain (53 : ℚ)
    exact hKout (Or.inr (by norm_num))

/-- C4: `FindPolyCoeff` returns the polynomial of the first entry in
table order whose closed interval contains the probe (both endpoints
inclusive), signals no-match (`none`, C NULL) exactly when no entry
contains it, and on a boundary shared by two adjacent entries selects
the earlier entry. -/
theorem claim_C4_first_match :
    (∀ (rs : List RangePoly) (v : ℚ),
      FindPolyCoeff rs v = none ↔ ∀ r ∈ rs, ¬(r.min ≤ v ∧ v ≤ r.max)) ∧
    (∀ (pre : List RangePoly) (r : RangePoly) (post : List RangePoly) (v : ℚ),
      (∀ x ∈ pre, ¬(x.min ≤ v ∧ v ≤ x.max)) → r.min ≤ v → v ≤ r.max →
      FindPolyCoeff (pre ++ r :: post) v = some r.poly) ∧
    (∀ (pre : List RangePoly) (a b : RangePoly) (post : List RangePoly) (v : ℚ),
      (∀ x ∈ pre, ¬(x.min ≤ v ∧ v ≤ x.max)) → a.min ≤ v → a.max = v → b.min = v →
      FindPolyCoeff (pre ++ a :: b :: post) v = some a.poly) :=
  ⟨find_none_iff, find_first, fun pre a b post v hpre h1 h2 _ =>
    find_first pre a (b :: post) v hpre h1 (le_of_eq h2.symm)⟩

/-- Witness for C4: a probe on the boundary shared by two adjacent
entries selects the earlier entry. -/
theorem claim_C4_witness :
    FindPolyCoeff [⟨0, 1, [5]⟩, ⟨1, 2, [7]⟩] 1 = some [5] := by
  have h := claim_C4_first_match.2.2 [] ⟨0, 1, [5]⟩ ⟨1, 2, [7]⟩ [] 1
    (by simp) (by norm_num) rfl rfl
  simpa using h

/-- C5: under the precondition that the coefficient sequence is
non-empty, `Polynomial_Evaluate` (the Horner loop
`result = 0; for i from n-1 downto 0: result = result*x + c[i]`)
computes `c[0] + c[1]*x + ... + c[n-1]*x^(n-1)`. -/
theorem claim_C5_horner_sum (c : List ℚ) (x : ℚ) (h : 1 ≤ c.length) :
    Polynomial_Evaluate c x = ∑ i in Finset.range c.length, c.getD i 0 * x ^ i :=
  polyEval_eq_sum c x

/-- Witness for C5 on the concrete polynomial 2 + 3x + 4x² at x = 10. -/
theorem claim_C5_witness :
    1 ≤ ([2, 3, 4] : List ℚ).length ∧
    Polynomial_Evaluate [2, 3, 4] 10 =
      ∑ i in Finset.range ([2, 3, 4] : List ℚ).length,
        ([2, 3, 4] : List ℚ).getD i 0 * 10 ^ i :=
  ⟨by norm_num, claim_C5_horner_sum [2, 3, 4] 10 (by norm_num)⟩

/-- C6: a type value outside the 8 defined enum variants makes both
conversion functions return the failure sentinel, the constant −1.0e6. -/
theorem claim_C6_invalid_type (ty : ℤ)
    (h : ¬(ty = TC_TYPE_R ∨ ty = TC_TYPE_S ∨ ty = TC_TYPE_B ∨ ty = TC_TYPE_J ∨
      ty = TC_TYPE_T ∨ ty = TC_TYPE_E ∨ ty = TC_TYPE_K ∨ ty = TC_TYPE_N)) :
    (∀ v : ℚ, TC_CalculateTemperature ty v = TC_CONVERSION_FAILED) ∧
    (∀ (expf : ℚ → ℚ) (t : ℚ), TC_CalculateVoltage expf ty t = TC_CONVERSION_FAILED) ∧
    TC_CONVERSION_FAILED = -1.0e6 := by
  push_neg at h
  obtain ⟨h0, h1, h2, h3, h4, h5, h6, h7⟩ := h
  refine ⟨fun v => ?_, fun expf t => ?_, rfl⟩
  · simp only [TC_CalculateTemperature, if_neg h0, if_neg h1, if_neg h2, if_neg h3,
      if_neg h4, if_neg h5, if_neg h6, if_neg h7]
  · simp only [TC_CalculateVoltage, if_neg h0, if_neg h1, if_neg h2, if_neg h3,
      if_neg h4, if_neg h5, if_neg h6, if_neg h7]

/-- Witness for C6 at the concrete invalid type value 8. -/
theorem claim_C6_witness :
    TC_CalculateTemperature 8 0 = TC_CONVERSION_FAILED ∧
    TC_CalculateVoltage (fun q => q) 8 0 = TC_CONVERSION_FAILED := by
  have h := claim_C6_invalid_type 8 (by norm_num [TC_TYPE_R, TC_TYPE_S, TC_TYPE_B,
    TC_TYPE_J, TC_TYPE_T, TC_TYPE_E, TC_TYPE_K, TC_TYPE_N])
  exact ⟨h.1 0, h.2.1 (fun q => q) 0⟩

/-- C9: `Polynomial_Evaluate` at length 0 runs the loop zero times and
returns exactly 0; consequently the error branch of the type-K case of
`TC_CalculateVoltage` (reached with the NULL/length-0 pair) yields the
numeric value 0 — plus only the correction term when the temperature is
positive — rather than the sentinel or an out-of-bounds access. -/
theorem claim_C9_zero_length_total :
    (∀ x : ℚ, Polynomial_Evaluate [] x = 0) ∧
    (∀ (expf : ℚ → ℚ) (t : ℚ), t < -270.5 →
      TC_CalculateVoltage expf TC_TYPE_K t = 0) ∧
    (∀ (expf : ℚ → ℚ) (t : ℚ), 1372.5 < t →
      TC_CalculateVoltage expf TC_TYPE_K t = 0 + TC_K_Correction expf t) :=
  ⟨fun x => rfl, calcVolt_K_below, fun expf t h => by
    rw [calcVolt_K_above expf t h, zero_add]⟩

/-- Witness for C9 at the concrete out-of-domain temperature −300 °C. -/
theorem claim_C9_witness :
    TC_CalculateVoltage (fun q => q) TC_TYPE_K (-300) = 0 :=
  claim_C9_zero_length_total.2.1 (fun q => q) (-300) (by norm_num)

/-- C10: for every valid thermocouple type, `TC_CalculateVoltage` at
temperature 0 °C returns exactly 0: the matched range's constant
coefficient is 0, Horner evaluation at 0 returns the constant term, and
the type-K correction is not applied at 0. -/
theorem claim_C10_zero_at_zero (expf : ℚ → ℚ) :
    TC_CalculateVoltage expf TC_TYPE_R 0 = 0 ∧
    TC_CalculateVoltage expf TC_TYPE_S 0 = 0 ∧
    TC_CalculateVoltage expf TC_TYPE_B 0 = 0 ∧
    TC_CalculateVoltage expf TC_TYPE_J 0 = 0 ∧
    TC_CalculateVoltage expf TC_TYPE_T 0 = 0 ∧
    TC_CalculateVoltage expf TC_TYPE_E 0 = 0 ∧
    TC_CalculateVoltage expf TC_TYPE_K 0 = 0 ∧
    TC_CalculateVoltage expf TC_TYPE_N 0 = 0 := by
  refine ⟨?_, ?_, ?_, ?_, ?_, ?_, ?_, ?_⟩
  · rw [calcVolt_eq_R]
    norm_num [RangeConvert, FindPolyCoeff, TC_R_TempToMV, Polynomial_Evaluate,
      TC_Coeff_R_TempToMV_Range1, List.foldr_cons, List.foldr_nil]
  · rw [calcVolt_eq_S]
    norm_num [RangeConvert, FindPolyCoeff, TC_S_TempToMV, Polynomial_Evaluate,
      TC_Coeff_S_TempToMV_Range1, List.foldr_cons, List.foldr_nil]
  · rw [calcVolt_eq_B]
    norm_num [RangeConvert, FindPolyCoeff, TC_B_TempToMV, Polynomial_Evaluate,
      TC_Coeff_B_TempToMV_Range1, List.foldr_cons, List.foldr_nil]
  · rw [calcVolt_eq_J]
    norm_num [RangeConvert, FindPolyCoeff, TC_J_TempToMV, Polynomial_Evaluate,
      TC_Coeff_J_TempToMV_Range1, List.foldr_cons, List.foldr_nil]
  · rw [calcVolt_eq_T]
    norm_num [RangeConvert, FindPolyCoeff, TC_T_TempToMV, Polynomial_Evaluate,
      TC_Coeff_T_TempToMV_Range1, List.foldr_cons, List.foldr_nil]
  · rw [calcVolt_eq_E]
    norm_num [RangeConvert, FindPolyCoeff, TC_E_TempToMV, Polynomial_Evaluate,
      TC_Coeff_E_TempToMV_Range1, List.foldr_cons, List.foldr_nil]
  · rw [calcVolt_K_range1 expf 0 (by norm_num) le_rfl]
    norm_num [Polynomial_Evaluate, TC_Coeff_K_TempToMV_Range1, List.foldr_cons,
      List.foldr_nil]
  · rw [calcVolt_eq_N]
    norm_num [RangeConvert, FindPolyCoeff, TC_N_TempToMV, Polynomial_Evaluate,
      TC_Coeff_N_TempToMV_Range1, List.foldr_cons, List.foldr_nil]
